import Mathlib

/-!
# velad: install / token / load-balancer commands and the k3s staging code

A shallow embedding of `pkg/k3s.go` and `pkg/command.go`.

* Go `string` and `[]byte` values are Lean `String`s, read one character per
  byte: the embedding is exact for single-byte (ASCII) contents, which is what
  every concrete input below uses; lengths and offsets count characters.
* A Go `error` is `GoError := Option String`; `none` is `nil`.
* Code with side effects is a function `World → result × World`.  The `World`
  holds the files on disk and the list of observable events, oldest first.
* Everything the program cannot decide by itself (which system calls fail, what
  an external process does, what a collaborator outside these two files does)
  is read from an `Env` record, over which the theorems are universally
  quantified.
-/

namespace Velad

/-! ## Errors -/

/-- A Go `error` value: `none` is `nil`, `some msg` is a non-nil error with that text. -/
abbrev GoError := Option String

/-- The function `errors.Wrap(err, msg)` of `github.com/pkg/errors`:
`nil` stays `nil`, a non-nil error gets the message in front. -/
def Wrap (err : GoError) (msg : String) : GoError :=
  match err with
  | none => none
  | some e => some (msg ++ ": " ++ e)

/-! ## Events and the world -/

/-- Observable events of a run. -/
inductive Event where
  /-- entry into a function of the program or of a collaborator -/
  | enter (fn : String)
  /-- The call `utils.Info(args...)`, named `info` in the source -/
  | info (args : List String)
  /-- The call `utils.Errf(...)`, named `errf` in the source: a message on the error stream -/
  | errf (msg : String)
  /-- bytes written on standard output by `fmt.Print` / `fmt.Println` -/
  | stdout (s : String)
  /-- The call `os.Stat(path)` -/
  | stat (path : String)
  /-- The call `os.ReadFile(path)` -/
  | readFile (path : String)
  /-- The call `os.WriteFile(path, data, perm)` -/
  | writeFile (path : String) (data : String)
  /-- The call `os.MkdirAll(path, perm)` -/
  | mkdirAll (path : String)
  /-- The call `os.OpenFile(path, os.O_CREATE|os.O_WRONLY, perm)` -/
  | openFile (path : String)
  /-- The call of `io.Copy` into the file opened at `path` -/
  | copy (path : String)
  /-- The call `exec.Command(cmd, args...)` run with the extra environment entries `extraEnv` -/
  | exec (cmd : String) (args : List String) (extraEnv : List String)
  deriving DecidableEq, Repr

/-- The files on disk: the contents of each path that exists. -/
abbrev Files := String → Option String

/-- The state a command runs in. -/
structure World where
  files : Files
  trace : List Event

/-- Append one event to the trace. -/
def World.log (w : World) (e : Event) : World :=
  { w with trace := w.trace ++ [e] }

/-- Set the contents of one path. -/
def Files.set (fs : Files) (path : String) (data : String) : Files :=
  fun p => if p = path then some data else fs p

/-- The call `info(args...)`. -/
def info (args : List String) (w : World) : World :=
  w.log (Event.info args)

/-- The call `errf(msg)`. -/
def errf (msg : String) (w : World) : World :=
  w.log (Event.errf msg)

/-! ## Arguments -/

/-- Modelled from the spec: the type `CtrlPlaneArgs` is declared outside the two
source files; these are the four fields `composeArgs` reads. -/
structure CtrlPlaneArgs where
  DBEndpoint : String
  BindIP : String
  Token : String
  Controllers : String
  deriving DecidableEq, Repr

/-- Modelled from the spec: the chart sub-arguments of `apis.InstallArgs`, a type
declared outside the two source files; the fields are those the flags of the
install command bind. -/
structure ChartArgs where
  Values : List String
  Namespace : String
  Detail : Bool
  ReuseValues : Bool
  deriving DecidableEq, Repr

set_option linter.dupNamespace false in
/-- Modelled from the spec: the type `apis.InstallArgs`, declared outside the two
source files; the fields are those the flags of the install command bind. -/
structure InstallArgs where
  ClusterOnly : Bool
  DBEndpoint : String
  BindIP : String
  Token : String
  Controllers : String
  Name : String
  InstallArgs : ChartArgs
  deriving DecidableEq, Repr

/-- Modelled from the spec: the type `apis.LoadBalancerArgs`, declared outside the
two source files; the fields are those the flags of `load-balancer install`
bind. -/
structure LoadBalancerArgs where
  Hosts : List String
  Configuration : String
  deriving DecidableEq, Repr

/-- Split a list of characters at every comma (`strings.Split(s, ",")`). -/
def splitComma : List Char → List (List Char)
  | [] => [[]]
  | c :: cs =>
    match splitComma cs with
    | [] => [[c]]
    | first :: rest => if c = ',' then [] :: first :: rest else (c :: first) :: rest

/-- Modelled from the spec: `HaveController` is defined outside the two source
files.  The spec says the disable option is emitted when "the restricted list
excludes a controller named `job`": the controllers string is a comma-separated
list and the answer is membership of `target` in it. -/
def HaveController (controllers : String) (target : String) : Bool :=
  (splitComma controllers.data).contains target.data

/-- The function `composeArgs` of `pkg/k3s.go`; `haveController` is the helper
`HaveController`, which it calls. -/
def composeArgs (haveController : String → String → Bool) (args : CtrlPlaneArgs) :
    List String :=
  let shellArgs : List String := []
  let shellArgs :=
    if args.DBEndpoint ≠ "" then shellArgs ++ ["--datastore-endpoint=" ++ args.DBEndpoint]
    else shellArgs
  let shellArgs :=
    if args.BindIP ≠ "" then shellArgs ++ ["--tls-san=" ++ args.BindIP] else shellArgs
  let shellArgs :=
    if args.Token ≠ "" then shellArgs ++ ["--token=" ++ args.Token] else shellArgs
  if args.Controllers ≠ "*" then
    let shellArgs :=
      shellArgs ++ ["--kube-controller-manager-arg=controllers=" ++ args.Controllers]
    if !haveController args.Controllers "job" then
      shellArgs ++ ["--disable", "traefik"]
    else shellArgs
  else shellArgs

/-! ## The environment -/

/-- Everything a run depends on that the two source files do not decide: the
constants and helpers declared elsewhere in the repository, the embedded
artifacts, which system calls fail, and what external processes and
collaborators do.  An error oracle answers `none` when the call is not made to
fail by the environment. -/
structure Env where
  /-- constant `k3sBinaryLocation` -/
  k3sBinaryLocation : String
  /-- constant `k3sImageDir` -/
  k3sImageDir : String
  /-- constant `k3sImageLocation` -/
  k3sImageLocation : String
  /-- constant `KubeConfigLocation` -/
  KubeConfigLocation : String
  /-- constant `ExternalKubeConfigLocation` -/
  ExternalKubeConfigLocation : String
  /-- the embedded file system `K3sDirectory`: the contents of each embedded path -/
  embed : String → Option String
  /-- a failure of `os.Stat` on a path other than the path being absent -/
  statErr : String → GoError
  /-- a failure of `os.ReadFile` on a path other than the path being absent -/
  readErr : String → GoError
  /-- a failure of `os.WriteFile` on a path -/
  writeErr : String → GoError
  /-- a failure of `os.MkdirAll` on a path -/
  mkdirErr : String → GoError
  /-- a failure of `os.OpenFile` on a path -/
  openErr : String → GoError
  /-- a failure of `io.Copy` into a path after that many characters were written -/
  copyErr : String → Option (Nat × String)
  /-- an external process: command, arguments, extra environment entries and the
  files before; gives the combined output, the error of `CombinedOutput` and the
  files after -/
  run : String → List String → List String → Files → (String × GoError) × Files
  /-- the helper `SaveToTemp(reader, pattern)`: the name of the temporary file it
  created, or its error -/
  saveToTemp : String → String → Except String String
  /-- the result of a collaborator that returns only an error, by name and
  string arguments -/
  result : String → List String → GoError
  /-- the result of `h.Install(cArgs)` -/
  Install : InstallArgs → GoError
  /-- the result of `ConfigureNginx(LBArgs)` -/
  ConfigureNginx : LoadBalancerArgs → GoError
  /-- helper `utils.TransArgsToString` -/
  TransArgsToString : ChartArgs → List String
  /-- helper `HaveController` -/
  HaveController : String → String → Bool
  /-- the effect of a collaborator on the files, by name -/
  effect : String → Files → Files
  /-- the chart path returned by `PrepareVelaChart` -/
  chart : String
  /-- constant `version.VelaVersion` -/
  VelaVersion : String
  /-- helper `utils.IfDeployByPod` -/
  IfDeployByPod : String → Bool

/-! ## System calls -/

/-- The call `os.Stat(path)`, keeping only the error. -/
def osStat (env : Env) (path : String) (w : World) : GoError × World :=
  let w := w.log (Event.stat path)
  match env.statErr path with
  | some e => (some e, w)
  | none =>
    match w.files path with
    | none => (some ("stat " ++ path ++ ": no such file or directory"), w)
    | some _ => (none, w)

/-- The call `os.ReadFile(path)`. -/
def osReadFile (env : Env) (path : String) (w : World) : Except String String × World :=
  let w := w.log (Event.readFile path)
  match env.readErr path with
  | some e => (Except.error e, w)
  | none =>
    match w.files path with
    | none => (Except.error ("open " ++ path ++ ": no such file or directory"), w)
    | some data => (Except.ok data, w)

/-- The call `os.WriteFile(path, data, perm)`: creates or truncates the file and writes
`data`.  A write the environment makes fail leaves the files as they were. -/
def osWriteFile (env : Env) (path : String) (data : String) (w : World) : GoError × World :=
  let w := w.log (Event.writeFile path data)
  match env.writeErr path with
  | some e => (some e, w)
  | none => (none, { w with files := w.files.set path data })

/-- The call `os.MkdirAll(path, perm)`.  Directories are not part of `Files`. -/
def osMkdirAll (env : Env) (path : String) (w : World) : GoError × World :=
  let w := w.log (Event.mkdirAll path)
  (env.mkdirErr path, w)

/-- The call `os.OpenFile(path, os.O_CREATE|os.O_WRONLY, perm)`: the file is created
empty when it is absent and is left as it is when it exists (the flags hold no
`O_TRUNC`); the handle writes from offset 0. -/
def osOpenFile (env : Env) (path : String) (w : World) : GoError × World :=
  let w := w.log (Event.openFile path)
  match env.openErr path with
  | some e => (some e, w)
  | none =>
    match w.files path with
    | none => (none, { w with files := w.files.set path "" })
    | some _ => (none, w)

/-- Writing `data` from offset 0 over a file holding `old`: the first
`data.length` characters are replaced, what lies beyond them stays.  A character
stands for one byte, so this is the byte-level overwrite of `io.Copy` for
single-byte (ASCII) contents; for multi-byte characters the code counts bytes
and this definition counts characters. -/
def overwriteAt0 (data old : String) : String :=
  ⟨data.data ++ old.data.drop data.data.length⟩

/-- The call `io.Copy(dst, src)` where `dst` is a handle at offset 0 on `path` opened
without `O_TRUNC` and `src` yields `data`. -/
def ioCopy (env : Env) (path : String) (data : String) (w : World) : GoError × World :=
  let w := w.log (Event.copy path)
  let old := (w.files path).getD ""
  match env.copyErr path with
  | some (n, e) =>
    (some e, { w with files := w.files.set path (overwriteAt0 ⟨data.data.take n⟩ old) })
  | none => (none, { w with files := w.files.set path (overwriteAt0 data old) })

/-- The call `exec.Command(cmd, args...)` with `extraEnv` appended to the environment,
then `CombinedOutput()`. -/
def execCombinedOutput (env : Env) (cmd : String) (args extraEnv : List String) (w : World) :
    (String × GoError) × World :=
  let w := w.log (Event.exec cmd args extraEnv)
  let r := env.run cmd args extraEnv w.files
  (r.1, { w with files := r.2 })

/-- The call `fmt.Print(s)`. -/
def fmtPrint (s : String) (w : World) : World :=
  w.log (Event.stdout s)

/-- The call `fmt.Println(s)`. -/
def fmtPrintln (s : String) (w : World) : World :=
  w.log (Event.stdout (s ++ "\n"))

/-- A call of a collaborator (a function defined outside the two source files):
its entry is recorded and it may change the files. -/
def enterCollaborator (env : Env) (fn : String) (w : World) : World :=
  { w.log (Event.enter fn) with files := env.effect fn w.files }

/-- A call of a collaborator that returns only an error. -/
def callCollaborator (env : Env) (fn : String) (args : List String) (w : World) :
    GoError × World :=
  (env.result fn args, enterCollaborator env fn w)

/-- The events a run added: the trace after it without the trace before it. -/
def emitted (before after : World) : List Event :=
  after.trace.drop before.trace.length

/-! ## pkg/k3s.go -/

/-- The function `PrepareK3sImages`. -/
def PrepareK3sImages (env : Env) (w : World) : GoError × World :=
  let w := w.log (Event.enter "PrepareK3sImages")
  match env.embed "static/k3s/k3s-airgap-images-amd64.tar.gz" with
  | none => (some "open static/k3s/k3s-airgap-images-amd64.tar.gz: file does not exist", w)
  | some embedK3sImage =>
    match osMkdirAll env env.k3sImageDir w with
    | (some err, w) => (some err, w)
    | (none, w) =>
      match osOpenFile env env.k3sImageLocation w with
      | (some err, w) => (some err, w)
      | (none, w) =>
        match ioCopy env env.k3sImageLocation embedK3sImage w with
        | (some err, w) => (some err, w)
        | (none, w) =>
          match execCombinedOutput env "gzip" ["-f", "-d", env.k3sImageLocation] [] w with
          | ((output, err), w) =>
            let w := fmtPrint output w
            match err with
            | some err => (some err, w)
            | none =>
              let w := info ["Successfully prepare k3s image"] w
              (none, w)

/-- The function `PrepareK3sScript`.  The helper `SaveToTemp` is defined outside
the two source files; following the spec ("extract the embedded bootstrap script
to a freshly-named temporary file") a successful call leaves the script under
the name it returns. -/
def PrepareK3sScript (env : Env) (w : World) : Except String String × World :=
  let w := w.log (Event.enter "PrepareK3sScript")
  match env.embed "static/k3s/setup.sh" with
  | none => (Except.error "open static/k3s/setup.sh: file does not exist", w)
  | some embedScript =>
    let w := w.log (Event.enter "SaveToTemp")
    match env.saveToTemp embedScript "k3s-setup-*.sh" with
    | Except.error err => (Except.error err, w)
    | Except.ok scriptName =>
      (Except.ok scriptName, { w with files := w.files.set scriptName embedScript })

/-- The function `PrepareK3sBin`. -/
def PrepareK3sBin (env : Env) (w : World) : GoError × World :=
  let w := w.log (Event.enter "PrepareK3sBin")
  match env.embed "static/k3s/k3s" with
  | none => (some "open static/k3s/k3s: file does not exist", w)
  | some embedK3sBinary =>
    match osOpenFile env env.k3sBinaryLocation w with
    | (some err, w) => (some err, w)
    | (none, w) =>
      match ioCopy env env.k3sBinaryLocation embedK3sBinary w with
      | (some err, w) => (some err, w)
      | (none, w) =>
        let w := info ["Successfully place k3s binary to " ++ env.k3sBinaryLocation] w
        (none, w)

/-- The function `SetupK3s`. -/
def SetupK3s (env : Env) (cArgs : CtrlPlaneArgs) (w : World) : GoError × World :=
  let w := info ["Preparing cluster setup script..."] w
  match PrepareK3sScript env w with
  | (Except.error err, w) => (Wrap (some err) "fail to prepare k3s setup script", w)
  | (Except.ok script, w) =>
    let w := info ["Preparing k3s binary..."] w
    match PrepareK3sBin env w with
    | (some err, w) => (Wrap (some err) "Fail to prepare k3s binary", w)
    | (none, w) =>
      let w := info ["Preparing k3s images"] w
      match PrepareK3sImages env w with
      | (some err, w) => (Wrap (some err) "Fail to prepare k3s images", w)
      | (none, w) =>
        let w := info ["Setting up cluster..."] w
        let args := [script]
        let other := composeArgs env.HaveController cArgs
        let args := args ++ other
        match execCombinedOutput env "/bin/bash" args ["INSTALL_K3S_SKIP_DOWNLOAD=true"] w with
        | ((output, err), w) =>
          let w := fmtPrint output w
          (Wrap err "K3s install script failed", w)

/-- The function `strings.Replace(s, old, new, 1)` on lists of characters: the
first occurrence of `old` is replaced by `new`; an empty `old` matches at the
start. -/
def replaceFirst (old new : List Char) : List Char → List Char
  | [] => if old = [] then new else []
  | c :: cs =>
    if old.isPrefixOf (c :: cs) then new ++ (c :: cs).drop old.length
    else c :: replaceFirst old new cs

/-- The call `strings.Replace(s, old, new, 1)`. -/
def Replace1 (s old new : String) : String :=
  ⟨replaceFirst old.data new.data s.data⟩

/-- The number of positions of `s` at which `old` occurs. -/
def countOccurrences (old : List Char) : List Char → Nat
  | [] => if old = [] then 1 else 0
  | c :: cs => (if old.isPrefixOf (c :: cs) then 1 else 0) + countOccurrences old cs

/-- The function `GenKubeconfig`.  Go scoping is kept: `var err error` belongs to
the function; `originConf, err := os.ReadFile(...)` declares a second `err` that
lives in the `if` block, and `err = os.WriteFile(...)` assigns that one; the
final `return err` is outside the block and returns the first. -/
def GenKubeconfig (env : Env) (bindIP : String) (w : World) : GoError × World :=
  let err : GoError := none
  if bindIP ≠ "" then
    let w := info ["Generating kubeconfig for remote access into ",
      env.ExternalKubeConfigLocation] w
    match osReadFile env env.KubeConfigLocation w with
    | (Except.error errBlock, w) => (some errBlock, w)
    | (Except.ok originConf, w) =>
      let newConf := Replace1 originConf "127.0.0.1" bindIP
      match osWriteFile env env.ExternalKubeConfigLocation newConf w with
      | (_errBlock, w) =>
        let w := info ["Successfully generate kubeconfig at ",
          env.ExternalKubeConfigLocation] w
        (err, w)
  else
    let w := info ["Successfully generate kubeconfig at ", env.ExternalKubeConfigLocation] w
    (err, w)

/-! ## pkg/command.go -/

/-- The local variable `tokenLoc` of the token command. -/
def tokenLoc : String := "/var/lib/rancher/k3s/server/token"

/-- The `Run` function of `NewTokenCmd`. -/
def tokenRun (env : Env) (w : World) : World :=
  match osStat env tokenLoc w with
  | (none, w) =>
    match osReadFile env "/var/lib/rancher/k3s/server/token" w with
    | (Except.error err, w) =>
      errf ("Fail to read token file: " ++ tokenLoc ++ ": " ++ err ++ "\n") w
    | (Except.ok file, w) => fmtPrintln file w
  | (some _, w) => info ["No token found, control plane not set up yet."] w

/-- The deferred function of the install and load-balancer install commands:
`utils.Cleanup()`, whose error is only reported. -/
def deferredCleanup (env : Env) (w : World) : World :=
  match callCollaborator env "utils.Cleanup" [] w with
  | (some err, w) => errf ("Fail to clean up: " ++ err ++ "\n") w
  | (none, w) => w

/-- The argument list the install command gives to the chart installer. -/
def chartInstallArgs (env : Env) (cArgs : InstallArgs) : List String :=
  let installArgs := ["--file", env.chart, "--detail=false", "--version", env.VelaVersion]
  let installArgs :=
    if env.IfDeployByPod cArgs.Controllers then installArgs ++ ["--set", "deployByPod=true"]
    else installArgs
  let userDefinedArgs := env.TransArgsToString cArgs.InstallArgs
  installArgs ++ userDefinedArgs

/-- The body of the `RunE` function of `NewInstallCmd`, up to its `return`. -/
def installBody (env : Env) (cArgs : InstallArgs) (w : World) : GoError × World :=
  -- Step.1
  let w := enterCollaborator env "h.Install" w
  match env.Install cArgs with
  | some err => (Wrap (some err) "Fail to set up cluster", w)
  | none =>
    -- Step.2
    match callCollaborator env "h.GenKubeconfig" [cArgs.BindIP] w with
    | (some err, w) => (Wrap (some err) "fail to generate kubeconfig", w)
    | (none, w) =>
      match callCollaborator env "h.SetKubeconfig" [] w with
      | (some err, w) => (Wrap (some err) "fail to set kubeconfig", w)
      | (none, w) =>
        -- Step.3
        let w := enterCollaborator env "LinkToVela" w
        -- Step.4
        match callCollaborator env "LoadVelaImages" [] w with
        | (some err, w) => (Wrap (some err) "fail to load vela images", w)
        | (none, w) =>
          if !cArgs.ClusterOnly then
            -- Step.5
            match callCollaborator env "PrepareVelaChart" [] w with
            | (some err, w) => (Wrap (some err) "fail to prepare vela chart", w)
            | (none, w) =>
              match callCollaborator env "PrepareVelaUX" [] w with
              | (some err, w) => (Wrap (some err) "fail to prepare vela UX", w)
              | (none, w) =>
                -- Step.6
                let w := info ["Installing vela-core Helm chart..."] w
                let installArgs := chartInstallArgs env cArgs
                let r := callCollaborator env "installCmd.Execute" installArgs w
                let w :=
                  match r.1 with
                  | some err =>
                    errf ("Didn't install vela-core in control plane: " ++ err ++
                      ". You can try \"vela install\" later\n") r.2
                  | none => r.2
                let w := enterCollaborator env "utils.WarnSaveToken" w
                let w := info ["Successfully install KubeVela control plane! Try: vela components"] w
                (none, w)
          else
            let w := enterCollaborator env "utils.WarnSaveToken" w
            let w := info ["Successfully install KubeVela control plane! Try: vela components"] w
            (none, w)

/-- The `RunE` function of `NewInstallCmd`: the body, then the deferred cleanup,
which cannot change the returned error. -/
def installRunE (env : Env) (cArgs : InstallArgs) (w : World) : GoError × World :=
  let r := installBody env cArgs w
  (r.1, deferredCleanup env r.2)

/-- How a `Run` function ends: it returns to cobra, or the process is ended by
`os.Exit(code)`. -/
inductive Outcome where
  | returned
  | exited (code : Nat)
  deriving DecidableEq, Repr

/-- The `Run` function of `NewLBInstallCmd`.  `os.Exit` ends the process at
once: the deferred function does not run. -/
def lbInstallRun (env : Env) (LBArgs : LoadBalancerArgs) (w : World) : Outcome × World :=
  if LBArgs.Hosts.length = 0 then
    let w := errf "Must specify one host at least\n" w
    (Outcome.exited 1, w)
  else
    let w := enterCollaborator env "ConfigureNginx" w
    let err := env.ConfigureNginx LBArgs
    let w :=
      match err with
      | some err => errf ("Fail to setup load balancer (nginx): " ++ err ++ "\n") w
      | none => w
    let w := info ["Successfully setup load balancer!"] w
    (Outcome.returned, deferredCleanup env w)

/-! ## Concrete environments -/

/-- An environment in which nothing fails: the three artifacts are embedded,
every system call succeeds, external processes and collaborators succeed and
leave the files alone. -/
def sampleEnv : Env where
  k3sBinaryLocation := "/usr/local/bin/k3s"
  k3sImageDir := "/var/lib/rancher/k3s/agent/images/"
  k3sImageLocation := "/var/lib/rancher/k3s/agent/images/k3s-airgap-images-amd64.tar.gz"
  KubeConfigLocation := "/etc/rancher/k3s/k3s.yaml"
  ExternalKubeConfigLocation := "/etc/rancher/k3s/k3s-external.yaml"
  embed := fun p =>
    if p = "static/k3s/setup.sh" then some "#!/bin/sh"
    else if p = "static/k3s/k3s" then some "ELF"
    else if p = "static/k3s/k3s-airgap-images-amd64.tar.gz" then some "GZ"
    else none
  statErr := fun _ => none
  readErr := fun _ => none
  writeErr := fun _ => none
  mkdirErr := fun _ => none
  openErr := fun _ => none
  copyErr := fun _ => none
  run := fun _ _ _ fs => (("", none), fs)
  saveToTemp := fun _ _ => Except.ok "/tmp/k3s-setup-1.sh"
  result := fun _ _ => none
  Install := fun _ => none
  ConfigureNginx := fun _ => none
  TransArgsToString := fun _ => []
  HaveController := HaveController
  effect := fun _ fs => fs
  chart := "/tmp/vela-core.tgz"
  VelaVersion := "v1.5.0"
  IfDeployByPod := fun _ => false

/-- A world with no file and no event. -/
def emptyWorld : World := ⟨fun _ => none, []⟩

/-- A world holding one file. -/
def worldWith (path data : String) : World := ⟨Files.set (fun _ => none) path data, []⟩

/-- Default control-plane arguments. -/
def defaultCtrlArgs : CtrlPlaneArgs := ⟨"", "", "", "*"⟩

/-- The default values of the install command's flags. -/
def defaultInstallArgs : InstallArgs :=
  ⟨false, "", "", "", "*", "default", ⟨[], "vela-system", true, true⟩⟩

/-- The setup script is missing from the embedded files. -/
def envNoScript : Env := { sampleEnv with embed := fun _ => none }

/-- Opening the binary path fails. -/
def envBinOpenFails : Env :=
  { sampleEnv with openErr := fun p => if p = "/usr/local/bin/k3s" then some "permission denied" else none }

/-- The decompression utility fails. -/
def envGzipFails : Env :=
  { sampleEnv with run := fun cmd _ _ fs =>
      if cmd = "gzip" then (("gzip: not in gzip format", some "exit status 1"), fs)
      else (("", none), fs) }

/-- The handler's `Install` fails. -/
def envInstallFails : Env := { sampleEnv with Install := fun _ => some "exit status 1" }

/-- Only the chart installer fails. -/
def envChartFails : Env :=
  { sampleEnv with result := fun fn _ =>
      if fn = "installCmd.Execute" then some "timed out" else none }

/-- Writing the external kubeconfig fails. -/
def envWriteFails : Env :=
  { sampleEnv with writeErr := fun p =>
      if p = "/etc/rancher/k3s/k3s-external.yaml" then some "permission denied" else none }

/-- The token file cannot be looked up (its directory is not searchable). -/
def envStatDenied : Env :=
  { sampleEnv with statErr := fun p =>
      if p = "/var/lib/rancher/k3s/server/token" then some "permission denied" else none }

/-- The token file exists and can be looked up but not read. -/
def envReadDenied : Env :=
  { sampleEnv with readErr := fun p =>
      if p = "/var/lib/rancher/k3s/server/token" then some "permission denied" else none }

/-- The load-balancer configuration fails. -/
def envNginxFails : Env := { sampleEnv with ConfigureNginx := fun _ => some "nginx not found" }

/-! ## composeArgs -/

/-- C3: for every argument record (and whatever `HaveController` answers),
`composeArgs` returns exactly the datastore option iff `DBEndpoint` is non-empty,
then the tls-san option iff `BindIP` is non-empty, then the token option iff
`Token` is non-empty, then, iff `Controllers` is not `"*"`, the controller
restriction followed by `"--disable", "traefik"` iff `HaveController` says `job`
is not in the list; with the `HaveController` of the spec, `"*"` gives neither,
`"scheduler,node"` gives both and `"job,node"` gives only the restriction. -/
theorem composeArgs_exact :
    (∀ (haveController : String → String → Bool) (args : CtrlPlaneArgs),
      composeArgs haveController args =
        (if args.DBEndpoint ≠ "" then ["--datastore-endpoint=" ++ args.DBEndpoint] else []) ++
        (if args.BindIP ≠ "" then ["--tls-san=" ++ args.BindIP] else []) ++
        (if args.Token ≠ "" then ["--token=" ++ args.Token] else []) ++
        (if args.Controllers ≠ "*" then
          ["--kube-controller-manager-arg=controllers=" ++ args.Controllers] ++
          (if haveController args.Controllers "job" = false then ["--disable", "traefik"]
           else [])
         else [])) ∧
    (∀ db ip tok : String,
      composeArgs HaveController ⟨db, ip, tok, "*"⟩ =
        (if db ≠ "" then ["--datastore-endpoint=" ++ db] else []) ++
        (if ip ≠ "" then ["--tls-san=" ++ ip] else []) ++
        (if tok ≠ "" then ["--token=" ++ tok] else [])) ∧
    (∀ db ip tok : String,
      composeArgs HaveController ⟨db, ip, tok, "scheduler,node"⟩ =
        (if db ≠ "" then ["--datastore-endpoint=" ++ db] else []) ++
        (if ip ≠ "" then ["--tls-san=" ++ ip] else []) ++
        (if tok ≠ "" then ["--token=" ++ tok] else []) ++
        ["--kube-controller-manager-arg=controllers=scheduler,node", "--disable", "traefik"]) ∧
    (∀ db ip tok : String,
      composeArgs HaveController ⟨db, ip, tok, "job,node"⟩ =
        (if db ≠ "" then ["--datastore-endpoint=" ++ db] else []) ++
        (if ip ≠ "" then ["--tls-san=" ++ ip] else []) ++
        (if tok ≠ "" then ["--token=" ++ tok] else []) ++
        ["--kube-controller-manager-arg=controllers=job,node"]) := by
  have hs : HaveController "scheduler,node" "job" = false := by decide
  have hj : HaveController "job,node" "job" = true := by decide
  have hs1 : ("scheduler,node" : String) ≠ "*" := by decide
  have hj1 : ("job,node" : String) ≠ "*" := by decide
  refine ⟨?_, ?_, ?_, ?_⟩
  rotate_left 2
  · intro db ip tok
    unfold composeArgs
    by_cases h1 : db = "" <;> by_cases h2 : ip = "" <;> by_cases h3 : tok = "" <;>
      simp [h1, h2, h3, hs, hs1]
  · intro db ip tok
    unfold composeArgs
    by_cases h1 : db = "" <;> by_cases h2 : ip = "" <;> by_cases h3 : tok = "" <;>
      simp [h1, h2, h3, hj, hj1]
  · intro hc args
    unfold composeArgs
    by_cases h1 : args.DBEndpoint = "" <;> by_cases h2 : args.BindIP = "" <;>
      by_cases h3 : args.Token = "" <;> by_cases h4 : args.Controllers = "*" <;>
      cases h5 : hc args.Controllers "job" <;> simp [h1, h2, h3, h4, h5]
  · intro db ip tok
    unfold composeArgs
    by_cases h1 : db = "" <;> by_cases h2 : ip = "" <;> by_cases h3 : tok = "" <;>
      simp [h1, h2, h3]

/-! ## Traces of the staging steps -/

theorem emitted_append (w w1 : World) (evs : List Event) (h : w1.trace = w.trace ++ evs) :
    emitted w w1 = evs := by
  simp [emitted, h]

theorem PrepareK3sScript_emits (env : Env) (w : World) :
    ∃ evs, (PrepareK3sScript env w).2.trace = w.trace ++ evs ∧
      ∀ ev ∈ evs, ev = Event.enter "PrepareK3sScript" ∨ ev = Event.enter "SaveToTemp" := by
  refine ⟨(PrepareK3sScript env w).2.trace.drop w.trace.length, ?_, ?_⟩ <;>
    unfold PrepareK3sScript <;>
    cases h1 : env.embed "static/k3s/setup.sh" <;> simp [World.log] <;>
    cases h2 : env.saveToTemp _ "k3s-setup-*.sh" <;> simp

theorem PrepareK3sBin_emits (env : Env) (w : World) :
    ∃ evs, (PrepareK3sBin env w).2.trace = w.trace ++ evs ∧
      ∀ ev ∈ evs, ev = Event.enter "PrepareK3sBin" ∨ ev = Event.openFile env.k3sBinaryLocation ∨
        ev = Event.copy env.k3sBinaryLocation ∨
        ev = Event.info ["Successfully place k3s binary to " ++ env.k3sBinaryLocation] := by
  refine ⟨(PrepareK3sBin env w).2.trace.drop w.trace.length, ?_, ?_⟩ <;>
    unfold PrepareK3sBin <;>
    cases h1 : env.embed "static/k3s/k3s" <;>
    cases h2 : env.openErr env.k3sBinaryLocation <;>
    cases h3 : w.files env.k3sBinaryLocation <;>
    cases h4 : env.copyErr env.k3sBinaryLocation <;>
    simp [World.log, osOpenFile, ioCopy, info, h1, h2, h3, h4]

theorem PrepareK3sImages_emits (env : Env) (w : World) :
    ∃ evs, (PrepareK3sImages env w).2.trace = w.trace ++ evs ∧
      ∀ ev ∈ evs, ∀ args extraEnv, ev ≠ Event.exec "/bin/bash" args extraEnv := by
  refine ⟨(PrepareK3sImages env w).2.trace.drop w.trace.length, ?_, ?_⟩ <;>
    unfold PrepareK3sImages <;>
    cases h1 : env.embed "static/k3s/k3s-airgap-images-amd64.tar.gz" <;>
    cases h2 : env.mkdirErr env.k3sImageDir <;>
    cases h3 : env.openErr env.k3sImageLocation <;>
    cases h4 : w.files env.k3sImageLocation <;>
    cases h5 : env.copyErr env.k3sImageLocation <;>
    simp [World.log, osMkdirAll, osOpenFile, ioCopy, info, execCombinedOutput, fmtPrint,
      h1, h2, h3, h4, h5] <;>
    split <;> simp

theorem installBody_Install_fails (env : Env) (cArgs : InstallArgs) (w : World) (e : String)
    (h : env.Install cArgs = some e) :
    installBody env cArgs w =
      (Wrap (some e) "Fail to set up cluster", enterCollaborator env "h.Install" w) := by
  simp [installBody, h]

theorem deferredCleanup_emits (env : Env) (w : World) :
    ∃ evs, (deferredCleanup env w).trace = w.trace ++ evs ∧
      ∀ ev ∈ evs, ev = Event.enter "utils.Cleanup" ∨ ∃ msg, ev = Event.errf msg := by
  refine ⟨(deferredCleanup env w).trace.drop w.trace.length, ?_, ?_⟩ <;>
    unfold deferredCleanup <;>
    cases h : env.result "utils.Cleanup" [] <;>
    simp [callCollaborator, enterCollaborator, World.log, errf, h]

/-! ## Fail-fast staging -/

/-- C1: in `SetupK3s`, when `PrepareK3sScript` returns an error, or
`PrepareK3sBin` does, or `PrepareK3sImages` does, `SetupK3s` returns an error,
no later staging step is entered and `/bin/bash` is not run; and when
`h.Install` returns an error the install command returns an error and none of
`h.GenKubeconfig`, `h.SetKubeconfig`, `LinkToVela`, `LoadVelaImages`,
`PrepareVelaChart`, `PrepareVelaUX` and the chart installer is entered. -/
theorem install_fail_fast_on_staging :
    (∀ (env : Env) (cArgs : CtrlPlaneArgs) (w : World) (e : String) (w1 : World),
      PrepareK3sScript env (info ["Preparing cluster setup script..."] w) = (Except.error e, w1) →
      (SetupK3s env cArgs w).1 ≠ none ∧
      Event.enter "PrepareK3sBin" ∉ emitted w (SetupK3s env cArgs w).2 ∧
      Event.enter "PrepareK3sImages" ∉ emitted w (SetupK3s env cArgs w).2 ∧
      ∀ args extraEnv, Event.exec "/bin/bash" args extraEnv ∉ emitted w (SetupK3s env cArgs w).2) ∧
    (∀ (env : Env) (cArgs : CtrlPlaneArgs) (w : World) (script : String) (w1 : World)
        (e : String) (w2 : World),
      PrepareK3sScript env (info ["Preparing cluster setup script..."] w) = (Except.ok script, w1) →
      PrepareK3sBin env (info ["Preparing k3s binary..."] w1) = (some e, w2) →
      (SetupK3s env cArgs w).1 ≠ none ∧
      Event.enter "PrepareK3sImages" ∉ emitted w (SetupK3s env cArgs w).2 ∧
      ∀ args extraEnv, Event.exec "/bin/bash" args extraEnv ∉ emitted w (SetupK3s env cArgs w).2) ∧
    (∀ (env : Env) (cArgs : CtrlPlaneArgs) (w : World) (script : String) (w1 w2 : World)
        (e : String) (w3 : World),
      PrepareK3sScript env (info ["Preparing cluster setup script..."] w) = (Except.ok script, w1) →
      PrepareK3sBin env (info ["Preparing k3s binary..."] w1) = (none, w2) →
      PrepareK3sImages env (info ["Preparing k3s images"] w2) = (some e, w3) →
      (SetupK3s env cArgs w).1 ≠ none ∧
      ∀ args extraEnv, Event.exec "/bin/bash" args extraEnv ∉ emitted w (SetupK3s env cArgs w).2) ∧
    (∀ (env : Env) (cArgs : InstallArgs) (w : World) (e : String),
      env.Install cArgs = some e →
      (installRunE env cArgs w).1 ≠ none ∧
      ∀ fn ∈ ["h.GenKubeconfig", "h.SetKubeconfig", "LinkToVela", "LoadVelaImages",
          "PrepareVelaChart", "PrepareVelaUX", "installCmd.Execute"],
        Event.enter fn ∉ emitted w (installRunE env cArgs w).2) := by
  refine ⟨?_, ?_, ?_, ?_⟩
  · intro env cArgs w e w1 h
    obtain ⟨evs, htr, hev⟩ := PrepareK3sScript_emits env (info ["Preparing cluster setup script..."] w)
    rw [h] at htr
    have hS : SetupK3s env cArgs w = (Wrap (some e) "fail to prepare k3s setup script", w1) := by
      simp [SetupK3s, h]
    have hem : emitted w w1 = Event.info ["Preparing cluster setup script..."] :: evs :=
      emitted_append w w1 _ (by simpa [info, World.log] using htr)
    rw [hS]
    refine ⟨by simp [Wrap], ?_, ?_, ?_⟩
    · simp only [hem]
      intro hmem
      rcases List.mem_cons.1 hmem with h0 | h0
      · cases h0
      · rcases hev _ h0 with h1 | h1 <;> simp at h1
    · simp only [hem]
      intro hmem
      rcases List.mem_cons.1 hmem with h0 | h0
      · cases h0
      · rcases hev _ h0 with h1 | h1 <;> simp at h1
    · intro args extraEnv
      simp only [hem]
      intro hmem
      rcases List.mem_cons.1 hmem with h0 | h0
      · cases h0
      · rcases hev _ h0 with h1 | h1 <;> simp at h1
  · intro env cArgs w script w1 e w2 h1 h2
    obtain ⟨evs1, htr1, hev1⟩ :=
      PrepareK3sScript_emits env (info ["Preparing cluster setup script..."] w)
    obtain ⟨evs2, htr2, hev2⟩ := PrepareK3sBin_emits env (info ["Preparing k3s binary..."] w1)
    rw [h1] at htr1
    rw [h2] at htr2
    have hS : SetupK3s env cArgs w = (Wrap (some e) "Fail to prepare k3s binary", w2) := by
      simp [SetupK3s, h1, h2]
    have hem : emitted w w2 = Event.info ["Preparing cluster setup script..."] :: evs1 ++
        Event.info ["Preparing k3s binary..."] :: evs2 :=
      emitted_append w w2 _ (by
        simp only [info, World.log] at htr1 htr2
        simp [htr2, htr1])
    rw [hS]
    refine ⟨by simp [Wrap], ?_, ?_⟩
    · simp only [hem]
      intro hmem
      rcases List.mem_append.1 hmem with h0 | h0 <;> rcases List.mem_cons.1 h0 with h0 | h0
      · cases h0
      · rcases hev1 _ h0 with h3 | h3 <;> simp at h3
      · cases h0
      · rcases hev2 _ h0 with h3 | h3 | h3 | h3 <;> simp at h3
    · intro args extraEnv
      simp only [hem]
      intro hmem
      rcases List.mem_append.1 hmem with h0 | h0 <;> rcases List.mem_cons.1 h0 with h0 | h0
      · cases h0
      · rcases hev1 _ h0 with h3 | h3 <;> simp at h3
      · cases h0
      · rcases hev2 _ h0 with h3 | h3 | h3 | h3 <;> simp at h3
  · intro env cArgs w script w1 w2 e w3 h1 h2 h3
    obtain ⟨evs1, htr1, hev1⟩ :=
      PrepareK3sScript_emits env (info ["Preparing cluster setup script..."] w)
    obtain ⟨evs2, htr2, hev2⟩ := PrepareK3sBin_emits env (info ["Preparing k3s binary..."] w1)
    obtain ⟨evs3, htr3, hev3⟩ := PrepareK3sImages_emits env (info ["Preparing k3s images"] w2)
    rw [h1] at htr1
    rw [h2] at htr2
    rw [h3] at htr3
    have hS : SetupK3s env cArgs w = (Wrap (some e) "Fail to prepare k3s images", w3) := by
      simp [SetupK3s, h1, h2, h3]
    have hem : emitted w w3 = Event.info ["Preparing cluster setup script..."] :: evs1 ++
        Event.info ["Preparing k3s binary..."] :: evs2 ++
        Event.info ["Preparing k3s images"] :: evs3 :=
      emitted_append w w3 _ (by
        simp only [info, World.log] at htr1 htr2 htr3
        simp [htr3, htr2, htr1])
    rw [hS]
    refine ⟨by simp [Wrap], ?_⟩
    intro args extraEnv
    simp only [hem]
    intro hmem
    rcases List.mem_append.1 hmem with h0 | h0
    · rcases List.mem_append.1 h0 with h0 | h0 <;> rcases List.mem_cons.1 h0 with h0 | h0
      · cases h0
      · rcases hev1 _ h0 with h4 | h4 <;> simp at h4
      · cases h0
      · rcases hev2 _ h0 with h4 | h4 | h4 | h4 <;> simp at h4
    · rcases List.mem_cons.1 h0 with h0 | h0
      · cases h0
      · exact hev3 _ h0 args extraEnv rfl
  · intro env cArgs w e h
    obtain ⟨evs, htr, hev⟩ := deferredCleanup_emits env (enterCollaborator env "h.Install" w)
    have hem : emitted w (installRunE env cArgs w).2 = Event.enter "h.Install" :: evs :=
      emitted_append w _ _ (by
        simpa [installRunE, installBody_Install_fails env cArgs w e h, enterCollaborator,
          World.log] using htr)
    refine ⟨by simp [installRunE, installBody_Install_fails env cArgs w e h, Wrap], ?_⟩
    intro fn hfn hmem
    rw [hem] at hmem
    rcases List.mem_cons.1 hmem with h0 | h0
    · simp at h0
      subst h0
      simp at hfn
    · rcases hev _ h0 with h1 | ⟨msg, h1⟩
      · simp at h1
        subst h1
        simp at hfn
      · simp at h1

/-! ## The chart-install step -/

/-- C2: with `ClusterOnly = false`, when `h.Install`, `h.GenKubeconfig`,
`h.SetKubeconfig`, `LoadVelaImages`, `PrepareVelaChart` and `PrepareVelaUX`
succeed and the chart installer returns the error `e`, the install command
returns `nil` and the warning about the failed chart install is on the error
stream. -/
theorem chart_install_failure_is_warning (env : Env) (cArgs : InstallArgs) (w : World)
    (e : String)
    (hco : cArgs.ClusterOnly = false)
    (h1 : env.Install cArgs = none)
    (h2 : env.result "h.GenKubeconfig" [cArgs.BindIP] = none)
    (h3 : env.result "h.SetKubeconfig" [] = none)
    (h4 : env.result "LoadVelaImages" [] = none)
    (h5 : env.result "PrepareVelaChart" [] = none)
    (h6 : env.result "PrepareVelaUX" [] = none)
    (h7 : env.result "installCmd.Execute" (chartInstallArgs env cArgs) = some e) :
    (installRunE env cArgs w).1 = none ∧
    Event.errf ("Didn't install vela-core in control plane: " ++ e ++
      ". You can try \"vela install\" later\n") ∈ emitted w (installRunE env cArgs w).2 := by
  obtain ⟨evs, htr, -⟩ := deferredCleanup_emits env (installBody env cArgs w).2
  have hb : (installBody env cArgs w).1 = none := by
    simp [installBody, callCollaborator, h1, h2, h3, h4, h5, h6, hco]
  have ht : ∃ pre post, (installBody env cArgs w).2.trace = w.trace ++ pre ++
      Event.errf ("Didn't install vela-core in control plane: " ++ e ++
        ". You can try \"vela install\" later\n") :: post := by
    refine ⟨[Event.enter "h.Install", Event.enter "h.GenKubeconfig",
      Event.enter "h.SetKubeconfig", Event.enter "LinkToVela", Event.enter "LoadVelaImages",
      Event.enter "PrepareVelaChart", Event.enter "PrepareVelaUX",
      Event.info ["Installing vela-core Helm chart..."], Event.enter "installCmd.Execute"],
      [Event.enter "utils.WarnSaveToken",
       Event.info ["Successfully install KubeVela control plane! Try: vela components"]], ?_⟩
    simp [installBody, callCollaborator, enterCollaborator, World.log, info, errf,
      h1, h2, h3, h4, h5, h6, h7, hco]
  obtain ⟨pre, post, hpp⟩ := ht
  refine ⟨by simpa [installRunE] using hb, ?_⟩
  have hem : emitted w (installRunE env cArgs w).2 = pre ++
      Event.errf ("Didn't install vela-core in control plane: " ++ e ++
        ". You can try \"vela install\" later\n") :: post ++ evs :=
    emitted_append w _ _ (by
      simp only [installRunE]
      rw [htr, hpp]
      simp)
  rw [hem]
  simp

/-- Fail-fast staging at concrete inputs: a missing script, a binary path
that cannot be opened, a failing decompression and a failing `h.Install`. -/
theorem install_fail_fast_on_staging_witness :
    ((PrepareK3sScript envNoScript (info ["Preparing cluster setup script..."] emptyWorld)).1 =
        Except.error "open static/k3s/setup.sh: file does not exist" ∧
      (SetupK3s envNoScript defaultCtrlArgs emptyWorld).1 ≠ none) ∧
    ((SetupK3s envBinOpenFails defaultCtrlArgs emptyWorld).1 ≠ none ∧
      Event.enter "PrepareK3sImages" ∉
        emitted emptyWorld (SetupK3s envBinOpenFails defaultCtrlArgs emptyWorld).2) ∧
    ((SetupK3s envGzipFails defaultCtrlArgs emptyWorld).1 ≠ none ∧
      Event.exec "/bin/bash" ["/tmp/k3s-setup-1.sh"] ["INSTALL_K3S_SKIP_DOWNLOAD=true"] ∉
        emitted emptyWorld (SetupK3s envGzipFails defaultCtrlArgs emptyWorld).2) ∧
    (envInstallFails.Install defaultInstallArgs = some "exit status 1" ∧
      (installRunE envInstallFails defaultInstallArgs emptyWorld).1 ≠ none) :=
  ⟨⟨rfl, (install_fail_fast_on_staging.1 envNoScript defaultCtrlArgs emptyWorld _ _ rfl).1⟩,
   ⟨(install_fail_fast_on_staging.2.1 envBinOpenFails defaultCtrlArgs emptyWorld
      _ _ _ _ rfl rfl).1,
    (install_fail_fast_on_staging.2.1 envBinOpenFails defaultCtrlArgs emptyWorld
      _ _ _ _ rfl rfl).2.1⟩,
   ⟨(install_fail_fast_on_staging.2.2.1 envGzipFails defaultCtrlArgs emptyWorld
      _ _ _ _ _ rfl rfl rfl).1,
    (install_fail_fast_on_staging.2.2.1 envGzipFails defaultCtrlArgs emptyWorld
      _ _ _ _ _ rfl rfl rfl).2 _ _⟩,
   ⟨rfl, (install_fail_fast_on_staging.2.2.2 envInstallFails defaultInstallArgs emptyWorld
      _ rfl).1⟩⟩

/-- The chart-install warning at a concrete input: every step succeeds and the
chart installer times out. -/
theorem chart_install_failure_is_warning_witness :
    (installRunE envChartFails defaultInstallArgs emptyWorld).1 = none ∧
    Event.errf ("Didn't install vela-core in control plane: " ++ "timed out" ++
      ". You can try \"vela install\" later\n") ∈
      emitted emptyWorld (installRunE envChartFails defaultInstallArgs emptyWorld).2 :=
  chart_install_failure_is_warning envChartFails defaultInstallArgs emptyWorld "timed out"
    rfl rfl rfl rfl rfl rfl rfl rfl

/-! ## GenKubeconfig -/

/-- C6: `GenKubeconfig("")` returns `nil`, its only event is the final `info`
message (so it reads no file and writes no file), and every file is as it
was. -/
theorem GenKubeconfig_empty_bindIP (env : Env) (w : World) :
    (GenKubeconfig env "" w).1 = none ∧
    emitted w (GenKubeconfig env "" w).2 =
      [Event.info ["Successfully generate kubeconfig at ", env.ExternalKubeConfigLocation]] ∧
    (∀ path, Event.readFile path ∉ emitted w (GenKubeconfig env "" w).2) ∧
    (∀ path data, Event.writeFile path data ∉ emitted w (GenKubeconfig env "" w).2) ∧
    (GenKubeconfig env "" w).2.files = w.files := by
  have hem : emitted w (GenKubeconfig env "" w).2 =
      [Event.info ["Successfully generate kubeconfig at ", env.ExternalKubeConfigLocation]] :=
    emitted_append w _ _ (by simp [GenKubeconfig, info, World.log])
  refine ⟨by simp [GenKubeconfig], hem, ?_, ?_, by simp [GenKubeconfig, info, World.log]⟩
  · intro path
    simp [hem]
  · intro path data
    simp [hem]

/-- A failed read of the local kubeconfig is returned by `GenKubeconfig`. -/
theorem GenKubeconfig_read_failure (env : Env) (bindIP : String) (w : World) (e : String)
    (hb : bindIP ≠ "")
    (hr : (osReadFile env env.KubeConfigLocation
      (info ["Generating kubeconfig for remote access into ",
        env.ExternalKubeConfigLocation] w)).1 = Except.error e) :
    (GenKubeconfig env bindIP w).1 = some e := by
  unfold GenKubeconfig
  simp only [hb, ne_eq, not_false_eq_true, if_true]
  split
  · next e2 w2 heq =>
    rw [heq] at hr
    simp at hr
    simp [hr]
  · next c w2 heq =>
    rw [heq] at hr
    simp at hr

theorem isPrefixOf_append_self (old post : List Char) :
    old.isPrefixOf (old ++ post) = true := by
  induction old with
  | nil => simp
  | cons a t ih => simp [List.isPrefixOf, ih]

theorem countOccurrences_pos (old pre post : List Char) (hold : old ≠ []) :
    1 ≤ countOccurrences old (pre ++ (old ++ post)) := by
  induction pre with
  | nil =>
    cases old with
    | nil => exact absurd rfl hold
    | cons a t =>
      have hp := isPrefixOf_append_self (a :: t) post
      rw [List.nil_append]
      rw [List.cons_append] at hp ⊢
      rw [countOccurrences, hp]
      simp
  | cons c pre ih =>
    rw [List.cons_append, countOccurrences]
    omega

/-- When `old` occurs exactly once in `pre ++ old ++ post`, replacing its first
occurrence gives `pre ++ new ++ post`. -/
theorem replaceFirst_once (old new pre post : List Char) (hold : old ≠ [])
    (honce : countOccurrences old (pre ++ (old ++ post)) = 1) :
    replaceFirst old new (pre ++ (old ++ post)) = pre ++ (new ++ post) := by
  induction pre with
  | nil =>
    cases old with
    | nil => exact absurd rfl hold
    | cons a t =>
      have hp := isPrefixOf_append_self (a :: t) post
      rw [List.nil_append, List.nil_append]
      rw [List.cons_append] at hp ⊢
      rw [replaceFirst, hp]
      simp
  | cons c pre ih =>
    have hpos := countOccurrences_pos old pre post hold
    rw [List.cons_append, countOccurrences] at honce
    rw [List.cons_append, replaceFirst]
    by_cases hpre : old.isPrefixOf (c :: (pre ++ (old ++ post))) = true
    · rw [if_pos hpre] at honce
      omega
    · rw [if_neg hpre] at honce
      rw [if_neg hpre, ih (by omega)]
      simp

/-- When the local kubeconfig is readable and holds the loopback address exactly
once, the external path differs from the local one and the write does not fail,
`GenKubeconfig` returns `nil`, the external kubeconfig is the local one with the
address replaced by `bindIP`, and every other file, the local kubeconfig among
them, is as it was. -/
theorem GenKubeconfig_external_contents (env : Env) (bindIP pre post : String) (w : World)
    (hb : bindIP ≠ "")
    (hdist : env.KubeConfigLocation ≠ env.ExternalKubeConfigLocation)
    (hread : env.readErr env.KubeConfigLocation = none)
    (hfile : w.files env.KubeConfigLocation = some (pre ++ "127.0.0.1" ++ post))
    (honce : countOccurrences "127.0.0.1".data (pre ++ "127.0.0.1" ++ post).data = 1)
    (hwrite : env.writeErr env.ExternalKubeConfigLocation = none) :
    (GenKubeconfig env bindIP w).1 = none ∧
    (GenKubeconfig env bindIP w).2.files env.ExternalKubeConfigLocation =
      some (pre ++ bindIP ++ post) ∧
    (GenKubeconfig env bindIP w).2.files env.KubeConfigLocation =
      some (pre ++ "127.0.0.1" ++ post) ∧
    ∀ path, path ≠ env.ExternalKubeConfigLocation →
      (GenKubeconfig env bindIP w).2.files path = w.files path := by
  have hrep : Replace1 (pre ++ "127.0.0.1" ++ post) "127.0.0.1" bindIP = pre ++ bindIP ++ post := by
    have h := replaceFirst_once "127.0.0.1".data bindIP.data pre.data post.data (by decide)
      (by simpa using honce)
    apply String.ext
    simpa [Replace1] using h
  have hG : (GenKubeconfig env bindIP w).2.files =
      w.files.set env.ExternalKubeConfigLocation (pre ++ bindIP ++ post) := by
    simp [GenKubeconfig, hb, osReadFile, osWriteFile, info, World.log, hread, hfile, hwrite,
      hrep]
  refine ⟨?_, ?_, ?_, ?_⟩
  · simp [GenKubeconfig, hb, osReadFile, osWriteFile, info, World.log, hread, hfile, hwrite]
  · simp [hG, Files.set]
  · simp [hG, Files.set, hdist, hfile]
  · intro path hp
    simp [hG, Files.set, hp]

/-- The substitution at a concrete input. -/
theorem GenKubeconfig_external_contents_witness :
    (GenKubeconfig sampleEnv "10.0.0.5"
        (worldWith "/etc/rancher/k3s/k3s.yaml"
          ("server: https://" ++ "127.0.0.1" ++ ":6443"))).2.files
        sampleEnv.ExternalKubeConfigLocation =
      some ("server: https://" ++ "10.0.0.5" ++ ":6443") :=
  (GenKubeconfig_external_contents sampleEnv "10.0.0.5" "server: https://" ":6443"
    (worldWith "/etc/rancher/k3s/k3s.yaml" ("server: https://" ++ "127.0.0.1" ++ ":6443"))
    (by decide) (by decide) rfl (by rfl) (by decide) rfl).2.1

/-- C5, at the failing input: the local kubeconfig is readable, the write of the
external kubeconfig fails with "permission denied", and `GenKubeconfig` returns
`nil`; the write was attempted and the external file does not exist. -/
theorem GenKubeconfig_swallows_write_error :
    (osWriteFile envWriteFails envWriteFails.ExternalKubeConfigLocation
        "server: https://10.0.0.5:6443"
        (worldWith "/etc/rancher/k3s/k3s.yaml" "server: https://127.0.0.1:6443")).1 =
      some "permission denied" ∧
    (GenKubeconfig envWriteFails "10.0.0.5"
        (worldWith "/etc/rancher/k3s/k3s.yaml" "server: https://127.0.0.1:6443")).1 = none ∧
    Event.writeFile "/etc/rancher/k3s/k3s-external.yaml" "server: https://10.0.0.5:6443" ∈
      (GenKubeconfig envWriteFails "10.0.0.5"
        (worldWith "/etc/rancher/k3s/k3s.yaml" "server: https://127.0.0.1:6443")).2.trace := by
  refine ⟨by rfl, by rfl, by decide⟩

/-- C4, at the failing input: the local kubeconfig holds the loopback address
once, `GenKubeconfig("10.0.0.5")` returns `nil`, and the external kubeconfig is
not the substituted text: it does not exist, the write having failed. -/
theorem GenKubeconfig_success_without_external_file :
    (GenKubeconfig envWriteFails "10.0.0.5"
        (worldWith "/etc/rancher/k3s/k3s.yaml"
          ("server: https://" ++ "127.0.0.1" ++ ":6443"))).1 = none ∧
    (GenKubeconfig envWriteFails "10.0.0.5"
        (worldWith "/etc/rancher/k3s/k3s.yaml"
          ("server: https://" ++ "127.0.0.1" ++ ":6443"))).2.files
        "/etc/rancher/k3s/k3s-external.yaml" ≠
      some ("server: https://" ++ "10.0.0.5" ++ ":6443") := by
  refine ⟨by rfl, by decide⟩

/-! ## PrepareK3sBin -/

/-- C9, at the failing input: the binary path holds a file longer than the
embedded executable `"ELF"`; `PrepareK3sBin` returns `nil` and the file is the
executable followed by the tail of the previous file. -/
theorem PrepareK3sBin_keeps_old_tail :
    (PrepareK3sBin sampleEnv (worldWith "/usr/local/bin/k3s" "previous-binary")).1 = none ∧
    (PrepareK3sBin sampleEnv (worldWith "/usr/local/bin/k3s" "previous-binary")).2.files
        "/usr/local/bin/k3s" = some "ELFvious-binary" ∧
    sampleEnv.embed "static/k3s/k3s" = some "ELF" := by
  refine ⟨by rfl, by decide, by decide⟩

/-- After a successful `PrepareK3sBin` the binary path holds the embedded
executable written over the start of what was there before. -/
theorem PrepareK3sBin_contents (env : Env) (w w1 : World) (data : String)
    (he : env.embed "static/k3s/k3s" = some data)
    (h : PrepareK3sBin env w = (none, w1)) :
    w1.files env.k3sBinaryLocation =
      some (overwriteAt0 data ((w.files env.k3sBinaryLocation).getD "")) := by
  unfold PrepareK3sBin at h
  cases h2 : env.openErr env.k3sBinaryLocation <;>
    cases h3 : w.files env.k3sBinaryLocation <;>
    cases h4 : env.copyErr env.k3sBinaryLocation <;>
    simp [World.log, osOpenFile, ioCopy, info, he, h2, h3, h4] at h <;>
    subst h <;> simp [Files.set, h3]

/-! ## The load-balancer install command -/

/-- C7: with an empty host list and any configuration path, the command ends by
`os.Exit(1)`, its only event is the usage error on the error stream (so
`ConfigureNginx` is not entered and no file or process operation happens), and
the files are as they were. -/
theorem lbInstall_no_host (env : Env) (conf : String) (w : World) :
    (lbInstallRun env ⟨[], conf⟩ w).1 = Outcome.exited 1 ∧
    emitted w (lbInstallRun env ⟨[], conf⟩ w).2 = [Event.errf "Must specify one host at least\n"] ∧
    Event.enter "ConfigureNginx" ∉ emitted w (lbInstallRun env ⟨[], conf⟩ w).2 ∧
    (lbInstallRun env ⟨[], conf⟩ w).2.files = w.files := by
  have hem : emitted w (lbInstallRun env ⟨[], conf⟩ w).2 =
      [Event.errf "Must specify one host at least\n"] :=
    emitted_append w _ _ (by simp [lbInstallRun, errf, World.log])
  refine ⟨by simp [lbInstallRun], hem, by simp [hem], by simp [lbInstallRun, errf, World.log]⟩

/-- C10, at the failing input: one host is given and `ConfigureNginx` returns an
error; the command reports the failure, then reports
"Successfully setup load balancer!", and returns without `os.Exit`. -/
theorem lbInstall_reports_success_after_failure :
    envNginxFails.ConfigureNginx ⟨["10.0.0.1"], ""⟩ = some "nginx not found" ∧
    (lbInstallRun envNginxFails ⟨["10.0.0.1"], ""⟩ emptyWorld).1 = Outcome.returned ∧
    (lbInstallRun envNginxFails ⟨["10.0.0.1"], ""⟩ emptyWorld).2.trace =
      [Event.enter "ConfigureNginx",
       Event.errf "Fail to setup load balancer (nginx): nginx not found\n",
       Event.info ["Successfully setup load balancer!"],
       Event.enter "utils.Cleanup"] := by
  refine ⟨by rfl, by rfl, by decide⟩

/-! ## The token command -/

/-- C8, at the failing input: the token file exists with contents `"K10secret"`,
`os.Stat` on it fails with "permission denied", and the command's only events
are the lookup and the informational "No token found, control plane not set up
yet." message, with no error message: the "not configured" outcome is produced
although the file is not absent. -/
theorem token_stat_failure_reported_as_absent :
    (worldWith tokenLoc "K10secret").files tokenLoc = some "K10secret" ∧
    (osStat envStatDenied tokenLoc (worldWith tokenLoc "K10secret")).1 =
      some "permission denied" ∧
    emitted (worldWith tokenLoc "K10secret")
        (tokenRun envStatDenied (worldWith tokenLoc "K10secret")) =
      [Event.stat tokenLoc, Event.info ["No token found, control plane not set up yet."]] ∧
    ¬ (Event.info ["No token found, control plane not set up yet."] ∈
        emitted (worldWith tokenLoc "K10secret")
          (tokenRun envStatDenied (worldWith tokenLoc "K10secret")) →
      (worldWith tokenLoc "K10secret").files tokenLoc = none) := by
  refine ⟨by decide, by rfl, by decide, by decide⟩

/-- The sibling path of the token command: the same permission failure met at
`os.ReadFile` instead of `os.Stat` is reported on the error stream, not as
"No token found". -/
theorem token_read_failure_reported :
    emitted (worldWith tokenLoc "K10secret")
        (tokenRun envReadDenied (worldWith tokenLoc "K10secret")) =
      [Event.stat tokenLoc, Event.readFile tokenLoc,
       Event.errf ("Fail to read token file: /var/lib/rancher/k3s/server/token: " ++
         "permission denied" ++ "\n")] := by
  decide

/-- What the token command does, for every environment: when the token file is
absent its events are the lookup and the "No token found" message, with no error
message; when the file exists and neither the lookup nor the read fails, it
prints the file's contents and a newline; and the code emits the "No token
found" message exactly when `os.Stat` returns an error, whether the file is
absent or not. -/
theorem token_outcomes :
    (∀ (env : Env) (w : World), w.files tokenLoc = none →
      emitted w (tokenRun env w) =
        [Event.stat tokenLoc, Event.info ["No token found, control plane not set up yet."]]) ∧
    (∀ (env : Env) (w : World) (contents : String),
      w.files tokenLoc = some contents → env.statErr tokenLoc = none →
      env.readErr tokenLoc = none →
      emitted w (tokenRun env w) =
        [Event.stat tokenLoc, Event.readFile tokenLoc, Event.stdout (contents ++ "\n")]) ∧
    (∀ (env : Env) (w : World),
      Event.info ["No token found, control plane not set up yet."] ∈ emitted w (tokenRun env w) ↔
        (w.files tokenLoc = none ∨ env.statErr tokenLoc ≠ none)) := by
  refine ⟨?_, ?_, ?_⟩
  · intro env w h
    apply emitted_append
    have h' : w.files "/var/lib/rancher/k3s/server/token" = none := h
    cases hs : env.statErr "/var/lib/rancher/k3s/server/token" <;>
      simp [tokenRun, tokenLoc, osStat, info, World.log, hs, h']
  · intro env w contents h hs hr
    apply emitted_append
    have h' : w.files "/var/lib/rancher/k3s/server/token" = some contents := h
    have hs' : env.statErr "/var/lib/rancher/k3s/server/token" = none := hs
    have hr' : env.readErr "/var/lib/rancher/k3s/server/token" = none := hr
    simp [tokenRun, tokenLoc, osStat, osReadFile, fmtPrintln, World.log, hs', hr', h']
  · intro env w
    have key : ∃ evs, (tokenRun env w).trace = w.trace ++ evs ∧
        (Event.info ["No token found, control plane not set up yet."] ∈ evs ↔
          (w.files tokenLoc = none ∨ env.statErr tokenLoc ≠ none)) := by
      refine ⟨(tokenRun env w).trace.drop w.trace.length, ?_, ?_⟩ <;>
        cases hs : env.statErr "/var/lib/rancher/k3s/server/token" <;>
        cases hf : w.files "/var/lib/rancher/k3s/server/token" <;>
        cases hr : env.readErr "/var/lib/rancher/k3s/server/token" <;>
        simp [tokenRun, tokenLoc, osStat, osReadFile, fmtPrintln, info, errf, World.log,
          hs, hr, hf]
    obtain ⟨evs, htr, hiff⟩ := key
    rw [emitted_append w _ evs htr]
    exact hiff

/-- The token command at concrete inputs: an absent token file, a readable one, and one
whose lookup is denied. -/
theorem token_outcomes_witness :
    emitted emptyWorld (tokenRun sampleEnv emptyWorld) =
      [Event.stat tokenLoc, Event.info ["No token found, control plane not set up yet."]] ∧
    emitted (worldWith tokenLoc "K10secret") (tokenRun sampleEnv (worldWith tokenLoc "K10secret")) =
      [Event.stat tokenLoc, Event.readFile tokenLoc, Event.stdout ("K10secret" ++ "\n")] ∧
    Event.info ["No token found, control plane not set up yet."] ∈
      emitted (worldWith tokenLoc "K10secret")
        (tokenRun envStatDenied (worldWith tokenLoc "K10secret")) :=
  ⟨token_outcomes.1 sampleEnv emptyWorld rfl,
   token_outcomes.2.1 sampleEnv (worldWith tokenLoc "K10secret") "K10secret" rfl rfl rfl,
   (token_outcomes.2.2 envStatDenied (worldWith tokenLoc "K10secret")).2
     (Or.inr (by decide))⟩

/-! ## A run in which nothing fails -/

theorem SetupK3s_sample_run :
    (SetupK3s sampleEnv defaultCtrlArgs emptyWorld).1 = none ∧
    (SetupK3s sampleEnv defaultCtrlArgs emptyWorld).2.trace =
      [Event.info ["Preparing cluster setup script..."], Event.enter "PrepareK3sScript",
       Event.enter "SaveToTemp", Event.info ["Preparing k3s binary..."],
       Event.enter "PrepareK3sBin", Event.openFile "/usr/local/bin/k3s",
       Event.copy "/usr/local/bin/k3s",
       Event.info ["Successfully place k3s binary to /usr/local/bin/k3s"],
       Event.info ["Preparing k3s images"], Event.enter "PrepareK3sImages",
       Event.mkdirAll "/var/lib/rancher/k3s/agent/images/",
       Event.openFile "/var/lib/rancher/k3s/agent/images/k3s-airgap-images-amd64.tar.gz",
       Event.copy "/var/lib/rancher/k3s/agent/images/k3s-airgap-images-amd64.tar.gz",
       Event.exec "gzip" ["-f", "-d",
         "/var/lib/rancher/k3s/agent/images/k3s-airgap-images-amd64.tar.gz"] [],
       Event.stdout "", Event.info ["Successfully prepare k3s image"],
       Event.info ["Setting up cluster..."],
       Event.exec "/bin/bash" ["/tmp/k3s-setup-1.sh"] ["INSTALL_K3S_SKIP_DOWNLOAD=true"],
       Event.stdout ""] ∧
    (SetupK3s sampleEnv defaultCtrlArgs emptyWorld).2.files "/usr/local/bin/k3s" = some "ELF" := by
  refine ⟨by rfl, by decide, by decide⟩

theorem installRunE_sample_run :
    (installRunE sampleEnv defaultInstallArgs emptyWorld).1 = none ∧
    (installRunE sampleEnv defaultInstallArgs emptyWorld).2.trace =
      [Event.enter "h.Install", Event.enter "h.GenKubeconfig", Event.enter "h.SetKubeconfig",
       Event.enter "LinkToVela", Event.enter "LoadVelaImages", Event.enter "PrepareVelaChart",
       Event.enter "PrepareVelaUX", Event.info ["Installing vela-core Helm chart..."],
       Event.enter "installCmd.Execute", Event.enter "utils.WarnSaveToken",
       Event.info ["Successfully install KubeVela control plane! Try: vela components"],
       Event.enter "utils.Cleanup"] := by
  refine ⟨by rfl, by decide⟩

end Velad
